import Mathlib

/-!
Verification of the timezone-conversion core (`convertTime` in `index.ts`
together with the validators in `types.ts`).

The civil-time library (luxon) is modelled by:
* `ZoneRules` / `ZoneDB` — an abstract zone database mapping zone names to
  an offset function (minutes east of UTC, as luxon's `DateTime.offset`)
  and a daylight-saving flag, both functions of the absolute instant
  (minutes since the epoch);
* `DT` — a luxon `DateTime`: an absolute instant plus the zone it is
  anchored to (luxon stores `ts` + `zone`; all derived fields recompute);
* `fixOffset` / `fromObjectM` — luxon's civil-to-instant resolution
  algorithm (`fixOffset` is a direct transcription of luxon's function of
  the same name, in minutes instead of milliseconds);
* `setZoneM` — re-anchoring an instant to another zone;
* formatting functions for luxon's `HH:mm`, `ZZ` and `toISO` outputs.

The conversion pipeline `convertTime` is parametrised by a `LuxonLib`
interface whose operations may throw (an `Except String` layer standing
for JavaScript exceptions) so that the outer catch-and-rewrap boundary of
the source can be stated; `pureLib` instantiates it with the deterministic
zone-database model.
-/

/-! ### Data model (types.ts) -/

inductive ConversionErrorType where
  | INVALID_TIME_FORMAT
  | INVALID_TIMEZONE
  | INVALID_TIMEZONE_FORMAT
  | AMBIGUOUS_TIME
  | SKIPPED_TIME
  | CONVERSION_FAILED
  | SYSTEM_ERROR
deriving DecidableEq

structure ConversionError where
  type : ConversionErrorType
  message : String
  details : List (String × String)
deriving DecidableEq

structure TimezoneConversionInput where
  time : String
  from_timezone : String
  to_timezone : String
deriving DecidableEq

structure ZoneView where
  time : String
  timezone : String
  offset : String
  isDST : Bool
deriving DecidableEq

structure TimezoneConversionOutput where
  converted_time : String
  source : ZoneView
  target : ZoneView
deriving DecidableEq

/-! ### Zone database and luxon `DateTime` model -/

/-- Behaviour of one timezone: UTC offset in minutes and DST flag, both as
functions of the absolute instant in minutes since the epoch. -/
structure ZoneRules where
  offsetAt : Int → Int
  isDSTAt : Int → Bool

/-- The zone database: zone names the library recognizes, with their rules. -/
structure ZoneDB where
  rules : String → Option ZoneRules

/-- Reason and explanation carried by an invalid luxon `DateTime`. -/
structure InvalidInfo where
  reason : String
  explanation : String
deriving DecidableEq

/-- A valid luxon `DateTime`: an absolute instant (minutes since epoch)
anchored to a zone. -/
structure DT where
  ts : Int
  zoneName : String
  rules : ZoneRules

/-- Luxon `DateTime.offset` (minutes east of UTC at this instant). -/
def DT.offset (dt : DT) : Int := dt.rules.offsetAt dt.ts

/-- Luxon `DateTime.isInDST`. -/
def DT.isInDST (dt : DT) : Bool := dt.rules.isDSTAt dt.ts

/-- Local civil time of the instant, in minutes since the epoch of the
local calendar (instant plus offset). -/
def DT.localMinutes (dt : DT) : Int := dt.ts + dt.rules.offsetAt dt.ts

/-- Luxon `dt.minus({hours: h})`. -/
def DT.minusHours (dt : DT) (h : Int) : DT := { dt with ts := dt.ts - 60 * h }

/-- Luxon `dt.plus({hours: h})`. -/
def DT.plusHours (dt : DT) (h : Int) : DT := { dt with ts := dt.ts + 60 * h }

/-- Minute-of-day of the local civil time, in `[0, 1440)`. -/
def DT.timeOfDay (dt : DT) : Int := dt.localMinutes.emod 1440

/-- Luxon's `fixOffset`: resolve a local civil timestamp to an absolute
instant given a first offset guess, retrying with the offset observed at
the guessed instant; in a spring-forward gap it picks the larger offset
(shifting the civil time forward). Transcribed from luxon, in minutes. -/
def fixOffset (r : ZoneRules) (localTS o : Int) : Int × Int :=
  let utcGuess := localTS - o
  let o2 := r.offsetAt utcGuess
  if o = o2 then (utcGuess, o)
  else
    let utcGuess2 := utcGuess - (o2 - o)
    let o3 := r.offsetAt utcGuess2
    if o2 = o3 then (utcGuess2, o2)
    else (localTS - min o2 o3, max o2 o3)

/-- Luxon `DateTime.fromObject({year..minute, second: 0, millisecond: 0},
{zone})` with the date given as an epoch day number: invalid when the zone
is unknown or a unit is out of range, otherwise the resolved instant. -/
def fromObjectM (db : ZoneDB) (day : Int) (hour minute : Nat) (tz : String) :
    Except InvalidInfo DT :=
  match db.rules tz with
  | none => .error ⟨"unsupported zone", "the zone \"" ++ tz ++ "\" is not supported"⟩
  | some r =>
    if hour ≤ 23 ∧ minute ≤ 59 then
      let localTS : Int := day * 1440 + ((hour * 60 + minute : Nat) : Int)
      let p := fixOffset r localTS (r.offsetAt localTS)
      .ok { ts := p.1, zoneName := tz, rules := r }
    else
      .error ⟨"unit out of range", "you specified a time unit outside its valid range"⟩

/-- Luxon `dt.setZone(tz)`: same instant re-anchored; invalid when the
zone is unknown. -/
def setZoneM (db : ZoneDB) (dt : DT) (tz : String) : Except InvalidInfo DT :=
  match db.rules tz with
  | none => .error ⟨"unsupported zone", "the zone \"" ++ tz ++ "\" is not supported"⟩
  | some r => .ok { ts := dt.ts, zoneName := tz, rules := r }

/-! ### Validators (types.ts) -/

/-- Value of a digit character (meaningful when `isDigitChar` holds). -/
def digitVal (c : Char) : Nat := c.toNat - 48

/-- Character class `[0-9]` of the time regex. -/
def isDigitChar (c : Char) : Bool := decide (48 ≤ c.toNat ∧ c.toNat ≤ 57)

/-- The minute part `[0-5][0-9]` of the regex. -/
def minutesOK (m1 m2 : Char) : Bool :=
  decide (48 ≤ m1.toNat ∧ m1.toNat ≤ 53) && isDigitChar m2

/-- The two-digit hour alternative `[0-1][0-9]|2[0-3]` of the regex. -/
def hoursOK (h1 h2 : Char) : Bool :=
  decide ((48 ≤ h1.toNat ∧ h1.toNat ≤ 49 ∧ 48 ≤ h2.toNat ∧ h2.toNat ≤ 57) ∨
    (h1.toNat = 50 ∧ 48 ≤ h2.toNat ∧ h2.toNat ≤ 51))

/-- Acceptance of the anchored regex `^([0-1]?[0-9]|2[0-3]):[0-5][0-9]$`
from `validateTimeFormat` in types.ts, by case analysis on the string's
characters. -/
def timeRegexAccepts : List Char → Bool
  | [h1, c, m1, m2] => c = ':' && isDigitChar h1 && minutesOK m1 m2
  | [h1, h2, c, m1, m2] => c = ':' && hoursOK h1 h2 && minutesOK m1 m2
  | _ => false

/-- `validateTimeFormat` from types.ts. -/
def validateTimeFormat (time : String) : Bool := timeRegexAccepts time.data

/-- `validateTimezone` from types.ts:
`DateTime.local().setZone(timezone).isValid`. The starting local
`DateTime` is irrelevant because `setZone` keeps only its instant. -/
def validateTimezoneM (db : ZoneDB) (nowTs : Int) (tz : String) : Bool :=
  (setZoneM db { ts := nowTs, zoneName := "local", rules := ⟨fun _ => 0, fun _ => false⟩ } tz).isOk

/-! ### Parsing `time.split(':').map(Number)` -/

/-- JavaScript `String.split(':')` on the character list. -/
def splitColons : List Char → List (List Char)
  | [] => [[]]
  | c :: rest =>
    let r := splitColons rest
    if c = ':' then [] :: r
    else
      match r with
      | [] => [[c]]
      | g :: gs => (c :: g) :: gs

/-- Numeric value of an all-digit group. -/
def digitsToNat (l : List Char) : Nat := l.foldl (fun a c => 10 * a + digitVal c) 0

/-- JavaScript `Number` restricted to the non-negative integer strings the
code can meet; anything non-numeric is NaN, modelled as `none`. -/
def jsNumber (l : List Char) : Option Nat :=
  if l ≠ [] ∧ l.all isDigitChar then some (digitsToNat l) else none

/-- The destructuring `const [hours, minutes] = time.split(':').map(Number)`
on a character list; `none` when either of the first two components is
missing or NaN. -/
def parseHMlist (l : List Char) : Option (Nat × Nat) :=
  match (splitColons l).map jsNumber with
  | some h :: some m :: _ => some (h, m)
  | _ => none

/-- `time.split(':').map(Number)` destructured to `(hours, minutes)`. -/
def parseHM (time : String) : Option (Nat × Nat) := parseHMlist time.data

/-! ### Output formatting -/

/-- Two-digit zero-padded decimal rendering (luxon pads `HH`, `mm`). -/
def pad2 (n : Nat) : List Char := [Nat.digitChar (n / 10), Nat.digitChar (n % 10)]

/-- Four-digit zero-padded decimal rendering (year field of `toISO`). -/
def pad4 (n : Nat) : List Char :=
  [Nat.digitChar (n / 1000), Nat.digitChar (n / 100 % 10),
   Nat.digitChar (n / 10 % 10), Nat.digitChar (n % 10)]

/-- Luxon `toFormat('HH:mm')`. -/
def DT.formatHHmm (dt : DT) : String :=
  let tod := dt.timeOfDay.toNat
  ⟨pad2 (tod / 60) ++ ':' :: pad2 (tod % 60)⟩

/-- Signed `±HH:MM` rendering of an offset in minutes. -/
def formatOffset (o : Int) : String :=
  let a := o.natAbs
  ⟨(if o < 0 then '-' else '+') :: (pad2 (a / 60) ++ ':' :: pad2 (a % 60))⟩

/-- Luxon `toFormat('ZZ')` (short offset with colon). -/
def DT.formatZZ (dt : DT) : String := formatOffset dt.offset

/-- Gregorian (year, month, day) of an epoch day number, by the standard
civil-from-days algorithm with floor division. -/
def civilFromDay (day : Int) : Int × Int × Int :=
  let z := day + 719468
  let era := z.fdiv 146097
  let doe := z - era * 146097
  let yoe := (doe - doe.fdiv 1460 + doe.fdiv 36524 - doe.fdiv 146096).fdiv 365
  let y := yoe + era * 400
  let doy := doe - (365 * yoe + yoe.fdiv 4 - yoe.fdiv 100)
  let mp := (5 * doy + 2).fdiv 153
  let d := doy - (153 * mp + 2).fdiv 5 + 1
  let m := if mp < 10 then mp + 3 else mp - 9
  (if m ≤ 2 then y + 1 else y, m, d)

/-- Luxon `toISO()`: local civil date-time with milliseconds and the
offset suffix (`Z` in the UTC zone). -/
def DT.toISO (dt : DT) : String :=
  let lm := dt.localMinutes
  let day := lm.fdiv 1440
  let tod := (lm.emod 1440).toNat
  let c := civilFromDay day
  ⟨pad4 c.1.toNat ++ '-' :: pad2 c.2.1.toNat ++ '-' :: pad2 c.2.2.toNat ++
    'T' :: pad2 (tod / 60) ++ ':' :: pad2 (tod % 60) ++ (":00.000".data) ++
    (if dt.zoneName = "UTC" then ['Z'] else (formatOffset dt.offset).data)⟩

/-! ### The conversion pipeline (index.ts, `convertTime`) -/

/-- Interface of the luxon operations used inside the `try` block; each
may throw a JavaScript exception, modelled as the `Except String` layer,
and `fromObject` / `setZone` may also produce an invalid `DateTime`,
modelled as the inner `Except InvalidInfo`. -/
structure LuxonLib where
  validZone : String → Bool
  nowDay : Except String Int
  fromObject : Int → Nat → Nat → String → Except String (Except InvalidInfo DT)
  setZone : DT → String → Except String (Except InvalidInfo DT)

/-- The DST-gap test of `convertTime` lines 186–201: the instant one hour
earlier and the instant one hour later differ in their DST flag and in
their offset (the two nested `if`s collapse to this conjunction because
the outer `if` has no other effect). -/
def gapHeuristic (st : DT) : Bool :=
  ((st.minusHours 1).isInDST != (st.plusHours 1).isInDST) &&
    ((st.minusHours 1).offset != (st.plusHours 1).offset)

/-- Body of the `try` block of `convertTime` (lines 149–244): errors are
either a thrown `ConversionError` (`Sum.inl`) or a raw library exception
(`Sum.inr`). -/
def convertBody (lib : LuxonLib) (args : TimezoneConversionInput) :
    Except (ConversionError ⊕ String) TimezoneConversionOutput :=
  let hm := (parseHM args.time).getD (0, 0)
  match lib.nowDay with
  | .error msg => .error (.inr msg)
  | .ok today =>
    match lib.fromObject today hm.1 hm.2 args.from_timezone with
    | .error msg => .error (.inr msg)
    | .ok (.error info) =>
      .error (.inl ⟨.INVALID_TIME_FORMAT, "Invalid time for the given timezone",
        [("time", args.time), ("timezone", args.from_timezone), ("reason", info.reason)]⟩)
    | .ok (.ok sourceTime) =>
      if gapHeuristic sourceTime then
        .error (.inl ⟨.SKIPPED_TIME,
          "This time does not exist due to daylight saving time transition",
          [("time", args.time), ("timezone", args.from_timezone), ("transition", "DST"),
           ("before", (sourceTime.minusHours 1).toISO),
           ("after", (sourceTime.plusHours 1).toISO)]⟩)
      else
        match lib.setZone sourceTime args.to_timezone with
        | .error msg => .error (.inr msg)
        | .ok (.error info) =>
          .error (.inl ⟨.CONVERSION_FAILED, "Failed to convert to target timezone",
            [("reason", info.reason), ("invalidExplanation", info.explanation)]⟩)
        | .ok (.ok targetTime) =>
          .ok { converted_time := targetTime.formatHHmm,
                source := { time := args.time, timezone := args.from_timezone,
                            offset := sourceTime.formatZZ, isDST := sourceTime.isInDST },
                target := { time := targetTime.formatHHmm, timezone := args.to_timezone,
                            offset := targetTime.formatZZ, isDST := targetTime.isInDST } }

/-- `convertTime` (lines 123–245): validations in source order, then the
`try` body with the catch boundary rewrapping raw exceptions as
`SYSTEM_ERROR`. -/
def convertTime (lib : LuxonLib) (args : TimezoneConversionInput) :
    Except ConversionError TimezoneConversionOutput :=
  if lib.validZone args.from_timezone = false then
    .error ⟨.INVALID_TIMEZONE, "Invalid source timezone: " ++ args.from_timezone,
      [("timezone", args.from_timezone)]⟩
  else if lib.validZone args.to_timezone = false then
    .error ⟨.INVALID_TIMEZONE, "Invalid target timezone: " ++ args.to_timezone,
      [("timezone", args.to_timezone)]⟩
  else if validateTimeFormat args.time = false then
    .error ⟨.INVALID_TIME_FORMAT, "Invalid time format. Expected HH:MM",
      [("time", args.time)]⟩
  else
    match convertBody lib args with
    | .ok out => .ok out
    | .error (.inl e) => .error e
    | .error (.inr msg) =>
      .error ⟨.SYSTEM_ERROR, "An unexpected error occurred during time conversion",
        [("error", msg)]⟩

/-- The deterministic library: zone lookups through the database, the
ambient clock fixed to `nowTs` (validation) and `today` (conversion date),
and no thrown exceptions. -/
def pureLib (db : ZoneDB) (nowTs today : Int) : LuxonLib :=
  { validZone := validateTimezoneM db nowTs,
    nowDay := .ok today,
    fromObject := fun day h m tz => .ok (fromObjectM db day h m tz),
    setZone := fun dt tz => .ok (setZoneM db dt tz) }

/-- `convertTime` over the deterministic library. -/
def convertTimeP (db : ZoneDB) (nowTs today : Int) (args : TimezoneConversionInput) :
    Except ConversionError TimezoneConversionOutput :=
  convertTime (pureLib db nowTs today) args

/-! ### Sample zone database (test fixture for witnesses) -/

/-- Fixed zone at UTC. -/
def utcRules : ZoneRules := ⟨fun _ => 0, fun _ => false⟩

/-- Fixed zone at UTC+9, no DST (Asia/Tokyo). -/
def tokyoRules : ZoneRules := ⟨fun _ => 540, fun _ => false⟩

/-- America/New_York around a spring-forward transition: standard time
UTC-5 before the instant 420 (07:00 UTC on day 0, mirroring the 2024-03-10
transition), daylight time UTC-4 from then on. -/
def nyRules : ZoneRules :=
  ⟨fun ts => if ts < 420 then -300 else -240, fun ts => decide (420 ≤ ts)⟩

/-- Sample database with the zones the witnesses use. -/
def sampleDB : ZoneDB :=
  ⟨fun tz =>
    if tz = "UTC" then some utcRules
    else if tz = "Asia/Tokyo" then some tokyoRules
    else if tz = "America/New_York" then some nyRules
    else none⟩

/-- A library whose every operation throws, for exercising the
catch-and-rewrap boundary. -/
def throwingLib (msg : String) : LuxonLib :=
  { validZone := fun _ => true,
    nowDay := .error msg,
    fromObject := fun _ _ _ _ => .error msg,
    setZone := fun _ _ => .error msg }

/-! ### Specification-side predicates

These follow the spec's words, to be compared with the behaviour of the
source-derived definitions above. -/

/-- Spec wording for the accepted time strings: `H:MM` or `HH:MM`, hour
value 0–23, two-digit minute 00–59. -/
def TimeSpecProp (l : List Char) : Prop :=
  ∃ hd md, l = hd ++ ':' :: md ∧
    (hd.length = 1 ∨ hd.length = 2) ∧ (∀ c ∈ hd, isDigitChar c = true) ∧
    digitsToNat hd ≤ 23 ∧
    md.length = 2 ∧ (∀ c ∈ md, isDigitChar c = true) ∧ digitsToNat md ≤ 59

/-- Spec wording for a civil time formatted as zero-padded 24-hour
`HH:MM`. -/
def isPaddedHHMM (s : String) : Bool :=
  match s.data with
  | [h1, h2, c, m1, m2] =>
    c = ':' && isDigitChar h1 && isDigitChar h2 && isDigitChar m1 && isDigitChar m2 &&
      decide (10 * digitVal h1 + digitVal h2 ≤ 23 ∧ 10 * digitVal m1 + digitVal m2 ≤ 59)
  | _ => false

/-- Spec wording for an offset formatted as signed `±HH:MM`. -/
def isSignedOffsetStr (s : String) : Bool :=
  match s.data with
  | [sg, h1, h2, c, m1, m2] =>
    (sg = '+' || sg = '-') && isDigitChar h1 && isDigitChar h2 && c = ':' &&
      isDigitChar m1 && isDigitChar m2 &&
      decide (10 * digitVal m1 + digitVal m2 ≤ 59)
  | _ => false

/-- Offsets of every zone of the database stay below 100 hours in
magnitude, so that the `±HH:MM` rendering has two hour digits (real zone
databases stay within ±14 hours). -/
def saneOffsets (db : ZoneDB) : Prop :=
  ∀ tz r, db.rules tz = some r → ∀ ts, (r.offsetAt ts).natAbs < 6000

/-! ### Helper lemmas -/

theorem digitChar_toNat : ∀ n < 10, (Nat.digitChar n).toNat = 48 + n := by decide

theorem pads_accepted : ∀ h < 24, ∀ m < 60,
    timeRegexAccepts (pad2 h ++ ':' :: pad2 m) = true := by decide

theorem pads_parse : ∀ h < 24, ∀ m < 60,
    parseHMlist (pad2 h ++ ':' :: pad2 m) = some (h, m) := by decide

theorem validateTimezoneM_eq (db : ZoneDB) (nowTs : Int) (tz : String) :
    validateTimezoneM db nowTs tz = (db.rules tz).isSome := by
  unfold validateTimezoneM setZoneM
  cases db.rules tz <;> rfl

theorem fromObjectM_ok_inv {db : ZoneDB} {day : Int} {hour minute : Nat}
    {tz : String} {st : DT} (h : fromObjectM db day hour minute tz = .ok st) :
    db.rules tz = some st.rules ∧ st.zoneName = tz := by
  unfold fromObjectM at h
  cases hr : db.rules tz with
  | none => simp only [hr] at h; exact Except.noConfusion h
  | some r =>
    simp only [hr] at h
    split at h
    · injection h with h
      subst h
      exact ⟨rfl, rfl⟩
    · exact Except.noConfusion h

theorem setZoneM_ok_inv {db : ZoneDB} {dt : DT} {tz : String} {tt : DT}
    (h : setZoneM db dt tz = .ok tt) :
    db.rules tz = some tt.rules ∧ tt = ⟨dt.ts, tz, tt.rules⟩ := by
  unfold setZoneM at h
  cases hr : db.rules tz with
  | none => simp only [hr] at h; exact Except.noConfusion h
  | some r =>
    simp only [hr] at h
    injection h with h
    subst h
    exact ⟨rfl, rfl⟩

theorem gapHeuristic_iff (st : DT) :
    gapHeuristic st = true ↔
      ((st.minusHours 1).isInDST ≠ (st.plusHours 1).isInDST ∧
       (st.minusHours 1).offset ≠ (st.plusHours 1).offset) := by
  simp [gapHeuristic]

theorem convertTimeP_run (db : ZoneDB) (nowTs today : Int)
    (args : TimezoneConversionInput) (h m : Nat) (st : DT) (rt : ZoneRules)
    (hz1 : (db.rules args.from_timezone).isSome = true)
    (hz2 : db.rules args.to_timezone = some rt)
    (hf : validateTimeFormat args.time = true)
    (hp : parseHM args.time = some (h, m))
    (hsrc : fromObjectM db today h m args.from_timezone = .ok st)
    (hgap : gapHeuristic st = false) :
    convertTimeP db nowTs today args = .ok
      { converted_time := (DT.mk st.ts args.to_timezone rt).formatHHmm,
        source := ⟨args.time, args.from_timezone, st.formatZZ, st.isInDST⟩,
        target := ⟨(DT.mk st.ts args.to_timezone rt).formatHHmm, args.to_timezone,
                   (DT.mk st.ts args.to_timezone rt).formatZZ,
                   (DT.mk st.ts args.to_timezone rt).isInDST⟩ } := by
  have hz1' : validateTimezoneM db nowTs args.from_timezone = true := by
    rw [validateTimezoneM_eq]; exact hz1
  have hz2' : validateTimezoneM db nowTs args.to_timezone = true := by
    rw [validateTimezoneM_eq, hz2]; rfl
  unfold convertTimeP convertTime pureLib
  simp only [convertBody, hz1', hz2', hf, hp, hsrc, hgap, setZoneM, hz2,
    Option.getD_some, Bool.true_eq_false, if_false, if_neg]
  simp

theorem convertBody_ok_inv {lib : LuxonLib} {args : TimezoneConversionInput}
    {out : TimezoneConversionOutput} (h : convertBody lib args = .ok out) :
    ∃ st tt : DT,
      out = ⟨tt.formatHHmm, ⟨args.time, args.from_timezone, st.formatZZ, st.isInDST⟩,
             ⟨tt.formatHHmm, args.to_timezone, tt.formatZZ, tt.isInDST⟩⟩ := by
  unfold convertBody at h
  dsimp only at h
  repeat' split at h
  all_goals
    first
      | exact Except.noConfusion h
      | (injection h with h; exact ⟨_, _, h.symm⟩)

theorem convertTime_ok_inv {lib : LuxonLib} {args : TimezoneConversionInput}
    {out : TimezoneConversionOutput} (h : convertTime lib args = .ok out) :
    ∃ st tt : DT,
      out = ⟨tt.formatHHmm, ⟨args.time, args.from_timezone, st.formatZZ, st.isInDST⟩,
             ⟨tt.formatHHmm, args.to_timezone, tt.formatZZ, tt.isInDST⟩⟩ := by
  unfold convertTime at h
  split at h
  · exact Except.noConfusion h
  split at h
  · exact Except.noConfusion h
  split at h
  · exact Except.noConfusion h
  cases hb : convertBody lib args with
  | ok o =>
    rw [hb] at h
    injection h with h
    exact h ▸ convertBody_ok_inv hb
  | error e =>
    rw [hb] at h
    cases e with
    | inl e => exact Except.noConfusion h
    | inr msg => exact Except.noConfusion h

theorem convertTimeP_ok_inv {db : ZoneDB} {nowTs today : Int}
    {args : TimezoneConversionInput} {out : TimezoneConversionOutput}
    (h : convertTimeP db nowTs today args = .ok out) :
    ∃ st rt, fromObjectM db today ((parseHM args.time).getD (0, 0)).1
        ((parseHM args.time).getD (0, 0)).2 args.from_timezone = .ok st ∧
      db.rules args.to_timezone = some rt ∧ gapHeuristic st = false ∧
      out = ⟨(DT.mk st.ts args.to_timezone rt).formatHHmm,
             ⟨args.time, args.from_timezone, st.formatZZ, st.isInDST⟩,
             ⟨(DT.mk st.ts args.to_timezone rt).formatHHmm, args.to_timezone,
              (DT.mk st.ts args.to_timezone rt).formatZZ,
              (DT.mk st.ts args.to_timezone rt).isInDST⟩⟩ := by
  unfold convertTimeP convertTime at h
  split at h
  · exact Except.noConfusion h
  split at h
  · exact Except.noConfusion h
  split at h
  · exact Except.noConfusion h
  cases hb : convertBody (pureLib db nowTs today) args with
  | error e => rw [hb] at h; cases e <;> exact Except.noConfusion h
  | ok o =>
    rw [hb] at h
    injection h with h
    subst h
    unfold convertBody pureLib at hb
    dsimp only at hb
    cases hsrc : fromObjectM db today ((parseHM args.time).getD (0, 0)).1
        ((parseHM args.time).getD (0, 0)).2 args.from_timezone with
    | error info => simp only [hsrc] at hb; exact Except.noConfusion hb
    | ok st =>
      simp only [hsrc] at hb
      by_cases hgap : gapHeuristic st = true
      · rw [if_pos hgap] at hb; exact Except.noConfusion hb
      · rw [if_neg hgap] at hb
        cases htgt : setZoneM db st args.to_timezone with
        | error info => simp only [htgt] at hb; exact Except.noConfusion hb
        | ok tt =>
          simp only [htgt] at hb
          injection hb with hb
          obtain ⟨hrt, htteq⟩ := setZoneM_ok_inv htgt
          refine ⟨st, tt.rules, rfl, hrt, by simpa using hgap, ?_⟩
          rw [← hb, htteq]

theorem isDigitChar_iff {c : Char} :
    isDigitChar c = true ↔ 48 ≤ c.toNat ∧ c.toNat ≤ 57 := by
  simp [isDigitChar]

theorem ne_colon_of_le {c : Char} (h : c.toNat ≤ 57) : ¬ c = ':' := by
  intro he
  subst he
  have hc : (':').toNat = 58 := by decide
  omega

theorem splitColons_hmm (a m1 m2 : Char) (ha : ¬ a = ':') (h1 : ¬ m1 = ':')
    (h2 : ¬ m2 = ':') : splitColons [a, ':', m1, m2] = [[a], [m1, m2]] := by
  simp [splitColons, ha, h1, h2]

theorem splitColons_hhmm (a b m1 m2 : Char) (ha : ¬ a = ':') (hb : ¬ b = ':')
    (h1 : ¬ m1 = ':') (h2 : ¬ m2 = ':') :
    splitColons [a, b, ':', m1, m2] = [[a, b], [m1, m2]] := by
  simp [splitColons, ha, hb, h1, h2]

theorem jsNumber_digits {l : List Char} (hne : l ≠ []) (hd : l.all isDigitChar = true) :
    jsNumber l = some (digitsToNat l) := by
  unfold jsNumber
  rw [if_pos ⟨hne, hd⟩]

theorem pad2_digits (n : Nat) (h : n < 100) :
    isDigitChar (Nat.digitChar (n / 10)) = true ∧ isDigitChar (Nat.digitChar (n % 10)) = true ∧
    digitVal (Nat.digitChar (n / 10)) = n / 10 ∧ digitVal (Nat.digitChar (n % 10)) = n % 10 := by
  have h1 : n / 10 < 10 := by omega
  have h2 : n % 10 < 10 := by omega
  have e1 := digitChar_toNat _ h1
  have e2 := digitChar_toNat _ h2
  refine ⟨isDigitChar_iff.mpr (by omega), isDigitChar_iff.mpr (by omega), ?_, ?_⟩ <;>
    (unfold digitVal; omega)

theorem isPaddedHHMM_pad : ∀ h < 24, ∀ m < 60,
    isPaddedHHMM ⟨pad2 h ++ ':' :: pad2 m⟩ = true := by decide

theorem isPaddedHHMM_formatHHmm (dt : DT) : isPaddedHHMM dt.formatHHmm = true := by
  have h0 : 0 ≤ dt.localMinutes.emod 1440 := Int.emod_nonneg _ (by norm_num)
  have h1 : dt.localMinutes.emod 1440 < 1440 := Int.emod_lt_of_pos _ (by norm_num)
  have ht : dt.timeOfDay.toNat < 1440 := by unfold DT.timeOfDay; omega
  exact isPaddedHHMM_pad (dt.timeOfDay.toNat / 60) (by omega) (dt.timeOfDay.toNat % 60) (by omega)

theorem isSignedOffsetStr_formatOffset (o : Int) (h : o.natAbs < 6000) :
    isSignedOffsetStr (formatOffset o) = true := by
  obtain ⟨dh1, dh2, vh1, vh2⟩ := pad2_digits (o.natAbs / 60) (by omega)
  obtain ⟨dm1, dm2, vm1, vm2⟩ := pad2_digits (o.natAbs % 60) (by omega)
  have hle : 10 * (o.natAbs % 60 / 10) + o.natAbs % 60 % 10 ≤ 59 := by omega
  unfold formatOffset isSignedOffsetStr
  simp only [pad2, List.cons_append, List.nil_append]
  by_cases ho : o < 0
  · rw [if_pos ho]
    simp [dh1, dh2, dm1, dm2, vm1, vm2, hle]
  · rw [if_neg ho]
    simp [dh1, dh2, dm1, dm2, vm1, vm2, hle]

theorem parseHM_of_valid {t : String} (h : validateTimeFormat t = true) :
    ∃ hr mi, parseHM t = some (hr, mi) ∧ hr ≤ 23 ∧ mi ≤ 59 := by
  unfold validateTimeFormat at h
  unfold parseHM parseHMlist
  rcases hd : t.data with _ | ⟨a, _ | ⟨b, _ | ⟨c, _ | ⟨d, _ | ⟨e, _ | ⟨f, rest⟩⟩⟩⟩⟩⟩ <;>
      rw [hd] at h
  · exact Bool.noConfusion h
  · exact Bool.noConfusion h
  · exact Bool.noConfusion h
  · exact Bool.noConfusion h
  · simp only [timeRegexAccepts, minutesOK, Bool.and_eq_true, decide_eq_true_eq] at h
    obtain ⟨⟨hb, hda⟩, hmc, hdd⟩ := h
    subst hb
    have hdc : isDigitChar c = true := isDigitChar_iff.mpr ⟨hmc.1, by omega⟩
    have ha2 : ¬ a = ':' := ne_colon_of_le (isDigitChar_iff.mp hda).2
    have hc2 : ¬ c = ':' := ne_colon_of_le (by omega)
    have hd2 : ¬ d = ':' := ne_colon_of_le (isDigitChar_iff.mp hdd).2
    rw [splitColons_hmm a c d ha2 hc2 hd2]
    simp only [List.map_cons, List.map_nil]
    rw [jsNumber_digits (by simp) (by simp [hda]),
      jsNumber_digits (by simp) (by simp [hdc, hdd])]
    refine ⟨digitsToNat [a], digitsToNat [c, d], rfl, ?_, ?_⟩
    · have h1 := isDigitChar_iff.mp hda
      simp only [digitsToNat, List.foldl, digitVal]
      omega
    · have h1 := isDigitChar_iff.mp hdd
      simp only [digitsToNat, List.foldl, digitVal]
      omega
  · simp only [timeRegexAccepts, minutesOK, hoursOK, Bool.and_eq_true, decide_eq_true_eq] at h
    obtain ⟨⟨hc, hab⟩, hmd, hde⟩ := h
    subst hc
    have ha2 : ¬ a = ':' := ne_colon_of_le (by rcases hab with h1 | h1 <;> omega)
    have hb2 : ¬ b = ':' := ne_colon_of_le (by rcases hab with h1 | h1 <;> omega)
    have hd2 : ¬ d = ':' := ne_colon_of_le (by omega)
    have he2 : ¬ e = ':' := ne_colon_of_le (isDigitChar_iff.mp hde).2
    have hdaa : isDigitChar a = true :=
      isDigitChar_iff.mpr (by rcases hab with h1 | h1 <;> omega)
    have hdb : isDigitChar b = true :=
      isDigitChar_iff.mpr (by rcases hab with h1 | h1 <;> omega)
    have hdd : isDigitChar d = true := isDigitChar_iff.mpr ⟨hmd.1, by omega⟩
    rw [splitColons_hhmm a b d e ha2 hb2 hd2 he2]
    simp only [List.map_cons, List.map_nil]
    rw [jsNumber_digits (by simp) (by simp [hdaa, hdb]),
      jsNumber_digits (by simp) (by simp [hdd, hde])]
    refine ⟨digitsToNat [a, b], digitsToNat [d, e], rfl, ?_, ?_⟩
    · simp only [digitsToNat, List.foldl, digitVal]
      rcases hab with h1 | h1 <;> omega
    · have h1 := isDigitChar_iff.mp hde
      simp only [digitsToNat, List.foldl, digitVal]
      omega
  · exact Bool.noConfusion h

theorem fromObjectM_ok_of_valid {db : ZoneDB} {tz : String} {r : ZoneRules}
    (day : Int) (hour minute : Nat) (hr : db.rules tz = some r)
    (hh : hour ≤ 23) (hm : minute ≤ 59) :
    fromObjectM db day hour minute tz = .ok
      { ts := (fixOffset r (day * 1440 + ((hour * 60 + minute : Nat) : Int))
                 (r.offsetAt (day * 1440 + ((hour * 60 + minute : Nat) : Int)))).1,
        zoneName := tz, rules := r } := by
  unfold fromObjectM
  simp only [hr]
  rw [if_pos ⟨hh, hm⟩]

theorem timeOfDay_of_localMinutes {dt : DT} {today : Int} {v : Nat}
    (h : dt.localMinutes = today * 1440 + (v : Int)) (hv : v < 1440) :
    dt.timeOfDay = (v : Int) := by
  unfold DT.timeOfDay
  rw [h]
  show (today * 1440 + (v : Int)) % 1440 = (v : Int)
  omega

theorem formatHHmm_eq_pad {dt : DT} {v : Nat} (h : dt.timeOfDay = (v : Int)) :
    dt.formatHHmm = ⟨pad2 (v / 60) ++ ':' :: pad2 (v % 60)⟩ := by
  unfold DT.formatHHmm
  rw [h]
  simp

theorem sampleDB_sane : saneOffsets sampleDB := by
  intro tz r hr ts
  unfold sampleDB at hr
  dsimp only at hr
  split at hr
  · injection hr with hr
    subst hr
    show ((0 : Int)).natAbs < 6000
    decide
  split at hr
  · injection hr with hr
    subst hr
    show ((540 : Int)).natAbs < 6000
    decide
  split at hr
  · injection hr with hr
    subst hr
    show ((if ts < 420 then (-300 : Int) else -240)).natAbs < 6000
    split <;> decide
  · exact Option.noConfusion hr

/-! ### Claims -/

/-- C6: `isValidTimeFormat(time)` is true exactly for strings of the form
`H:MM` or `HH:MM` with hour value 0–23 and two-digit minute 00–59, and
false for everything else; the spec's example inputs behave as listed. -/
theorem c6_time_format_characterisation :
    (∀ s : String, validateTimeFormat s = true ↔ TimeSpecProp s.data) ∧
    validateTimeFormat "14:30" = true ∧ validateTimeFormat "25:00" = false ∧
    validateTimeFormat "2:5" = false ∧ validateTimeFormat "00:00" = true ∧
    validateTimeFormat "23:59" = true := by
  refine ⟨fun s => ⟨?_, ?_⟩, by decide, by decide, by decide, by decide, by decide⟩
  · intro hv
    unfold validateTimeFormat at hv
    rcases hd : s.data with _ | ⟨a, _ | ⟨b, _ | ⟨c, _ | ⟨d, _ | ⟨e, _ | ⟨f, rest⟩⟩⟩⟩⟩⟩ <;>
        rw [hd] at hv
    · exact Bool.noConfusion hv
    · exact Bool.noConfusion hv
    · exact Bool.noConfusion hv
    · exact Bool.noConfusion hv
    · simp only [timeRegexAccepts, minutesOK, Bool.and_eq_true, decide_eq_true_eq] at hv
      obtain ⟨⟨hb, hda⟩, hmc, hdd⟩ := hv
      subst hb
      refine ⟨[a], [c, d], rfl, Or.inl rfl, ?_, ?_, rfl, ?_, ?_⟩
      · intro x hx
        have hx2 : x = a := by simpa using hx
        subst hx2
        exact hda
      · have h1 := isDigitChar_iff.mp hda
        simp only [digitsToNat, List.foldl, digitVal]
        omega
      · intro x hx
        have hx2 : x = c ∨ x = d := by simpa using hx
        rcases hx2 with hx2 | hx2 <;> subst hx2
        · exact isDigitChar_iff.mpr ⟨hmc.1, by omega⟩
        · exact hdd
      · have h2 := isDigitChar_iff.mp hdd
        simp only [digitsToNat, List.foldl, digitVal]
        omega
    · simp only [timeRegexAccepts, minutesOK, hoursOK, Bool.and_eq_true,
        decide_eq_true_eq] at hv
      obtain ⟨⟨hc, hab⟩, hmd, hde⟩ := hv
      subst hc
      refine ⟨[a, b], [d, e], rfl, Or.inr rfl, ?_, ?_, rfl, ?_, ?_⟩
      · intro x hx
        have hx2 : x = a ∨ x = b := by simpa using hx
        rcases hx2 with hx2 | hx2 <;> subst hx2
        · exact isDigitChar_iff.mpr (by rcases hab with h1 | h1 <;> omega)
        · exact isDigitChar_iff.mpr (by rcases hab with h1 | h1 <;> omega)
      · simp only [digitsToNat, List.foldl, digitVal]
        rcases hab with h1 | h1 <;> omega
      · intro x hx
        have hx2 : x = d ∨ x = e := by simpa using hx
        rcases hx2 with hx2 | hx2 <;> subst hx2
        · exact isDigitChar_iff.mpr ⟨hmd.1, by omega⟩
        · exact hde
      · have h2 := isDigitChar_iff.mp hde
        simp only [digitsToNat, List.foldl, digitVal]
        omega
    · exact Bool.noConfusion hv
  · intro hs
    obtain ⟨hd, md, heq, hlen, hdig, hval, mlen, mdig, mval⟩ := hs
    unfold validateTimeFormat
    rw [heq]
    rcases md with _ | ⟨m1, _ | ⟨m2, _ | ⟨m3, mrest⟩⟩⟩
    · exact absurd mlen (by simp)
    · exact absurd mlen (by simp)
    · have hm1 : isDigitChar m1 = true := mdig m1 (by simp)
      have hm2 : isDigitChar m2 = true := mdig m2 (by simp)
      have hm1b := isDigitChar_iff.mp hm1
      have hm2b := isDigitChar_iff.mp hm2
      have hmv : 10 * (10 * 0 + (m1.toNat - 48)) + (m2.toNat - 48) ≤ 59 := by
        simpa only [digitsToNat, List.foldl, digitVal] using mval
      rcases hlen with h1 | h2
      · rcases hd with _ | ⟨a, _ | ⟨x, hrest⟩⟩
        · exact absurd h1 (by simp)
        · have hda : isDigitChar a = true := hdig a (by simp)
          simp only [List.cons_append, List.nil_append]
          simp only [timeRegexAccepts, minutesOK, Bool.and_eq_true, decide_eq_true_eq]
          exact ⟨⟨trivial, hda⟩, ⟨hm1b.1, by omega⟩, hm2⟩
        · exact absurd h1 (by simp only [List.length_cons]; omega)
      · rcases hd with _ | ⟨a, _ | ⟨b, _ | ⟨x, hrest⟩⟩⟩
        · exact absurd h2 (by simp)
        · exact absurd h2 (by simp)
        · have hda : isDigitChar a = true := hdig a (by simp)
          have hdb : isDigitChar b = true := hdig b (by simp)
          have hab := isDigitChar_iff.mp hda
          have hbb := isDigitChar_iff.mp hdb
          have hvv : 10 * (10 * 0 + (a.toNat - 48)) + (b.toNat - 48) ≤ 23 := by
            simpa only [digitsToNat, List.foldl, digitVal] using hval
          simp only [List.cons_append, List.nil_append]
          simp only [timeRegexAccepts, minutesOK, hoursOK, Bool.and_eq_true,
            decide_eq_true_eq]
          refine ⟨⟨trivial, ?_⟩, ⟨hm1b.1, by omega⟩, hm2⟩
          omega
        · exact absurd h2 (by simp only [List.length_cons]; omega)
    · exact absurd mlen (by simp only [List.length_cons]; omega)

/-- C7: `isValidTimezone` is true iff the civil-time database recognizes
the identifier (it is exactly database recognition for every database);
on the sample database it accepts "UTC" and "America/New_York" and
rejects "Invalid/Timezone" and the empty string. -/
theorem c7_validate_timezone (db : ZoneDB) (nowTs : Int) :
    (∀ tz, validateTimezoneM db nowTs tz = (db.rules tz).isSome) ∧
    validateTimezoneM sampleDB 0 "UTC" = true ∧
    validateTimezoneM sampleDB 0 "America/New_York" = true ∧
    validateTimezoneM sampleDB 0 "Invalid/Timezone" = false ∧
    validateTimezoneM sampleDB 0 "" = false :=
  ⟨fun tz => validateTimezoneM_eq db nowTs tz, by decide, by decide, by decide, by decide⟩

/-- C10: in every successful result the top-level converted_time equals
target.time, whatever the library does. -/
theorem c10_converted_time_eq_target_time (lib : LuxonLib)
    (args : TimezoneConversionInput) (out : TimezoneConversionOutput)
    (hok : convertTime lib args = .ok out) :
    out.converted_time = out.target.time := by
  obtain ⟨st, tt, hout⟩ := convertTime_ok_inv hok
  rw [hout]

/-- Witness for C10 at a concrete successful conversion. -/
theorem c10_witness :
    ("23:30" : String) = "23:30" :=
  c10_converted_time_eq_target_time (pureLib sampleDB 0 0) ⟨"14:30", "UTC", "Asia/Tokyo"⟩
    ⟨"23:30", ⟨"14:30", "UTC", "+00:00", false⟩, ⟨"23:30", "Asia/Tokyo", "+09:00", false⟩⟩
    rfl

/-- C5: the validations run in source order (source zone, then target
zone, then time format) and short-circuit before any library call; in
particular a request with both a bad zone and a bad time string is
reported as InvalidTimezone (source first), never InvalidTimeFormat. -/
theorem c5_validation_order (lib : LuxonLib) (args : TimezoneConversionInput) :
    (lib.validZone args.from_timezone = false →
      convertTime lib args = .error ⟨.INVALID_TIMEZONE,
        "Invalid source timezone: " ++ args.from_timezone,
        [("timezone", args.from_timezone)]⟩) ∧
    (lib.validZone args.from_timezone = true →
      lib.validZone args.to_timezone = false →
      convertTime lib args = .error ⟨.INVALID_TIMEZONE,
        "Invalid target timezone: " ++ args.to_timezone,
        [("timezone", args.to_timezone)]⟩) ∧
    (lib.validZone args.from_timezone = true →
      lib.validZone args.to_timezone = true →
      validateTimeFormat args.time = false →
      convertTime lib args = .error ⟨.INVALID_TIME_FORMAT,
        "Invalid time format. Expected HH:MM", [("time", args.time)]⟩) := by
  refine ⟨fun h1 => ?_, fun h1 h2 => ?_, fun h1 h2 h3 => ?_⟩
  · unfold convertTime
    rw [if_pos h1]
  · unfold convertTime
    rw [if_neg (by simp [h1]), if_pos h2]
  · unfold convertTime
    rw [if_neg (by simp [h1]), if_neg (by simp [h2]), if_pos h3]

/-- Witness for C5: both zones and the time string invalid; the reported
failure is the source-zone InvalidTimezone error. -/
theorem c5_witness :
    convertTimeP sampleDB 0 0 ⟨"99:99", "Bad/Zone", "Also/Bad"⟩ =
      .error ⟨.INVALID_TIMEZONE, "Invalid source timezone: Bad/Zone",
        [("timezone", "Bad/Zone")]⟩ :=
  (c5_validation_order (pureLib sampleDB 0 0) ⟨"99:99", "Bad/Zone", "Also/Bad"⟩).1 rfl

/-- C4 counterexample: for the spec's scenario the produced detail is
`{timezone: "Invalid/Timezone"}`; it has neither a `role` key nor a
`zone` key, so the claimed detail `{zone: ..., role: "source"}` is not
what the code returns. -/
theorem c4_counterexample :
    convertTimeP sampleDB 0 0 ⟨"14:30", "Invalid/Timezone", "Asia/Tokyo"⟩ =
      .error ⟨.INVALID_TIMEZONE, "Invalid source timezone: Invalid/Timezone",
        [("timezone", "Invalid/Timezone")]⟩ ∧
    "role" ∉ List.map Prod.fst [(("timezone" : String), ("Invalid/Timezone" : String))] ∧
    "zone" ∉ List.map Prod.fst [(("timezone" : String), ("Invalid/Timezone" : String))] :=
  ⟨rfl, by decide, by decide⟩

/-- C4 amended: an invalid source zone fails with kind InvalidTimezone,
the rejected zone stored under the `timezone` key of the detail, and the
role (source/target) conveyed only by the message; same for the target
zone. -/
theorem c4_invalid_timezone_error (lib : LuxonLib) (args : TimezoneConversionInput) :
    (lib.validZone args.from_timezone = false →
      convertTime lib args = .error ⟨.INVALID_TIMEZONE,
        "Invalid source timezone: " ++ args.from_timezone,
        [("timezone", args.from_timezone)]⟩) ∧
    (lib.validZone args.from_timezone = true →
      lib.validZone args.to_timezone = false →
      convertTime lib args = .error ⟨.INVALID_TIMEZONE,
        "Invalid target timezone: " ++ args.to_timezone,
        [("timezone", args.to_timezone)]⟩) := by
  refine ⟨fun h1 => ?_, fun h1 h2 => ?_⟩
  · unfold convertTime
    rw [if_pos h1]
  · unfold convertTime
    rw [if_neg (by simp [h1]), if_pos h2]

/-- Witness for the amended C4, target-zone role. -/
theorem c4_witness :
    convertTimeP sampleDB 0 0 ⟨"14:30", "UTC", "Invalid/Timezone"⟩ =
      .error ⟨.INVALID_TIMEZONE, "Invalid target timezone: Invalid/Timezone",
        [("timezone", "Invalid/Timezone")]⟩ :=
  (c4_invalid_timezone_error (pureLib sampleDB 0 0)
    ⟨"14:30", "UTC", "Invalid/Timezone"⟩).2 rfl rfl

/-- C9: `convert` always returns either a result or exactly one typed
ConversionError, and a raw exception thrown by the library inside the
conversion body of a validated request is caught and rewrapped as
SYSTEM_ERROR with the original message as the detail. -/
theorem c9_no_raw_fault_escapes (lib : LuxonLib) (args : TimezoneConversionInput) :
    ((∃ out, convertTime lib args = .ok out) ∨
      (∃ e, convertTime lib args = .error e)) ∧
    (∀ msg, lib.validZone args.from_timezone = true →
      lib.validZone args.to_timezone = true →
      validateTimeFormat args.time = true →
      convertBody lib args = .error (.inr msg) →
      convertTime lib args = .error ⟨.SYSTEM_ERROR,
        "An unexpected error occurred during time conversion", [("error", msg)]⟩) := by
  constructor
  · cases h : convertTime lib args with
    | ok out => exact Or.inl ⟨out, rfl⟩
    | error e => exact Or.inr ⟨e, rfl⟩
  · intro msg h1 h2 h3 hb
    unfold convertTime
    rw [if_neg (by simp [h1]), if_neg (by simp [h2]), if_neg (by simp [h3]), hb]

/-- Witness for C9: a library whose clock call throws has the exception
rewrapped as SYSTEM_ERROR. -/
theorem c9_witness :
    convertTime (throwingLib "boom") ⟨"14:30", "UTC", "UTC"⟩ =
      .error ⟨.SYSTEM_ERROR, "An unexpected error occurred during time conversion",
        [("error", "boom")]⟩ :=
  (c9_no_raw_fault_escapes (throwingLib "boom") ⟨"14:30", "UTC", "UTC"⟩).2 "boom"
    rfl rfl rfl rfl

/-- C1: for a validated request the conversion fails with kind
SkippedTime exactly when the instants one hour before and one hour after
the resolved source instant (both in the source zone) differ in their DST
flag and in their UTC offset; in that case the failure detail carries the
requested time, the source zone, and the ISO-8601 renderings of the two
neighbouring instants. -/
theorem c1_skipped_time_iff (db : ZoneDB) (nowTs today : Int)
    (args : TimezoneConversionInput) (h m : Nat) (st : DT)
    (hz1 : validateTimezoneM db nowTs args.from_timezone = true)
    (hz2 : validateTimezoneM db nowTs args.to_timezone = true)
    (hf : validateTimeFormat args.time = true)
    (hp : parseHM args.time = some (h, m))
    (hsrc : fromObjectM db today h m args.from_timezone = .ok st) :
    ((∃ e, convertTimeP db nowTs today args = .error e ∧
        e.type = .SKIPPED_TIME) ↔
      ((st.minusHours 1).isInDST ≠ (st.plusHours 1).isInDST ∧
       (st.minusHours 1).offset ≠ (st.plusHours 1).offset)) ∧
    (((st.minusHours 1).isInDST ≠ (st.plusHours 1).isInDST ∧
      (st.minusHours 1).offset ≠ (st.plusHours 1).offset) →
      convertTimeP db nowTs today args = .error
        ⟨.SKIPPED_TIME,
         "This time does not exist due to daylight saving time transition",
         [("time", args.time), ("timezone", args.from_timezone), ("transition", "DST"),
          ("before", (st.minusHours 1).toISO), ("after", (st.plusHours 1).toISO)]⟩) := by
  have hz1' : (db.rules args.from_timezone).isSome = true := by
    rw [← validateTimezoneM_eq db nowTs]
    exact hz1
  obtain ⟨rt, hrt⟩ : ∃ rt, db.rules args.to_timezone = some rt := by
    have h2 := hz2
    rw [validateTimezoneM_eq] at h2
    exact Option.isSome_iff_exists.mp h2
  by_cases hg : gapHeuristic st = true
  · have hres : convertTimeP db nowTs today args = .error
        ⟨.SKIPPED_TIME,
         "This time does not exist due to daylight saving time transition",
         [("time", args.time), ("timezone", args.from_timezone), ("transition", "DST"),
          ("before", (st.minusHours 1).toISO), ("after", (st.plusHours 1).toISO)]⟩ := by
      unfold convertTimeP convertTime pureLib
      rw [if_neg (by simp [hz1]), if_neg (by simp [hz2]), if_neg (by simp [hf])]
      simp only [convertBody, hp, Option.getD_some, hsrc, hg, if_true]
    exact ⟨⟨fun _ => (gapHeuristic_iff st).mp hg, fun _ => ⟨_, hres, rfl⟩⟩,
      fun _ => hres⟩
  · have hgf : gapHeuristic st = false := Bool.eq_false_iff.mpr hg
    have hres := convertTimeP_run db nowTs today args h m st rt hz1' hrt hf hp hsrc hgf
    have hcond : ¬ ((st.minusHours 1).isInDST ≠ (st.plusHours 1).isInDST ∧
        (st.minusHours 1).offset ≠ (st.plusHours 1).offset) :=
      fun hc => hg ((gapHeuristic_iff st).mpr hc)
    refine ⟨⟨fun he => ?_, fun hc => absurd hc hcond⟩, fun hc => absurd hc hcond⟩
    obtain ⟨e, he, htype⟩ := he
    rw [hres] at he
    exact Except.noConfusion he

/-- Witness for C1: 02:30 on the transition day of the sample
America/New_York zone is reported as SkippedTime with the neighbouring
instants in the detail. -/
theorem c1_witness :
    convertTimeP sampleDB 0 0 ⟨"02:30", "America/New_York", "UTC"⟩ =
      .error ⟨.SKIPPED_TIME,
        "This time does not exist due to daylight saving time transition",
        [("time", "02:30"), ("timezone", "America/New_York"), ("transition", "DST"),
         ("before", "1970-01-01T01:30:00.000-05:00"),
         ("after", "1970-01-01T04:30:00.000-04:00")]⟩ :=
  (c1_skipped_time_iff sampleDB 0 0 ⟨"02:30", "America/New_York", "UTC"⟩ 2 30
    ⟨450, "America/New_York", nyRules⟩ rfl rfl rfl rfl rfl).2 (by decide)

/-- C2 counterexample: "2:05" passes isValidTimeFormat, yet converting it
with sourceZone = targetZone returns the zero-padded "02:05" as
convertedTime, not the input string. -/
theorem c2_counterexample :
    validateTimeFormat "2:05" = true ∧
    convertTimeP sampleDB 0 0 ⟨"2:05", "UTC", "UTC"⟩ =
      .ok ⟨"02:05", ⟨"2:05", "UTC", "+00:00", false⟩,
           ⟨"02:05", "UTC", "+00:00", false⟩⟩ ∧
    ("02:05" : String) ≠ "2:05" :=
  ⟨rfl, rfl, by decide⟩

/-- C2 amended: with sourceZone = targetZone the conversion succeeds for
every isValidTimeFormat-accepted time whenever the civil time resolves
exactly and the gap heuristic stays silent; the source and target offsets
always agree, and convertedTime is the zero-padded HH:MM rendering of the
parsed input, hence equal to the input string whenever the hour is
written with two digits. -/
theorem c2_same_zone_identity (db : ZoneDB) (nowTs today : Int) (h m : Nat)
    (z t : String) (r : ZoneRules) (st : DT)
    (hz : db.rules z = some r)
    (hf : validateTimeFormat t = true)
    (hp : parseHM t = some (h, m))
    (hsrc : fromObjectM db today h m z = .ok st)
    (hexact : st.localMinutes = today * 1440 + ((h * 60 + m : Nat) : Int))
    (hgap : gapHeuristic st = false) :
    ∃ out, convertTimeP db nowTs today ⟨t, z, z⟩ = .ok out ∧
      out.converted_time = (⟨pad2 h ++ ':' :: pad2 m⟩ : String) ∧
      out.source.offset = out.target.offset ∧
      (t.data = pad2 h ++ ':' :: pad2 m → out.converted_time = t) := by
  obtain ⟨hr2, mi2, hp2, hhr, hmi⟩ := parseHM_of_valid hf
  have hpair : (h, m) = (hr2, mi2) := Option.some_inj.mp (hp.symm.trans hp2)
  have hhh : h = hr2 := congrArg Prod.fst hpair
  have hmm : m = mi2 := congrArg Prod.snd hpair
  have hh : h < 24 := by omega
  have hm2 : m < 60 := by omega
  have hz1' : (db.rules z).isSome = true := by rw [hz]; rfl
  obtain ⟨hzr, hzn⟩ := fromObjectM_ok_inv hsrc
  have hstr : st.rules = r := Option.some_inj.mp (hzr.symm.trans hz)
  have hres := convertTimeP_run db nowTs today ⟨t, z, z⟩ h m st r hz1' hz hf hp hsrc hgap
  have hlm : (DT.mk st.ts z r).localMinutes = today * 1440 + ((h * 60 + m : Nat) : Int) := by
    show st.ts + r.offsetAt st.ts = _
    rw [← hstr]
    exact hexact
  have htod := timeOfDay_of_localMinutes hlm (by omega)
  have hfmt : (DT.mk st.ts z r).formatHHmm = (⟨pad2 h ++ ':' :: pad2 m⟩ : String) := by
    rw [formatHHmm_eq_pad htod]
    have hdiv : (h * 60 + m) / 60 = h := by omega
    have hmod : (h * 60 + m) % 60 = m := by omega
    rw [hdiv, hmod]
  refine ⟨_, hres, hfmt, ?_, ?_⟩
  · show st.formatZZ = (DT.mk st.ts z r).formatZZ
    unfold DT.formatZZ DT.offset
    rw [hstr]
  · intro ht
    show (DT.mk st.ts z r).formatHHmm = t
    rw [hfmt]
    cases t with
    | mk l => exact congrArg String.mk ht.symm

/-- Witness for the amended C2 at the single-digit-hour input "2:05" in
the sample UTC zone. -/
theorem c2_witness :
    ∃ out, convertTimeP sampleDB 0 0 ⟨"2:05", "UTC", "UTC"⟩ = .ok out ∧
      out.converted_time = (⟨pad2 2 ++ ':' :: pad2 5⟩ : String) ∧
      out.source.offset = out.target.offset ∧
      (("2:05" : String).data = pad2 2 ++ ':' :: pad2 5 → out.converted_time = "2:05") :=
  c2_same_zone_identity sampleDB 0 0 2 5 "UTC" "2:05" utcRules
    ⟨125, "UTC", utcRules⟩ rfl rfl rfl rfl rfl rfl

/-- C3 counterexample: on the transition day, "12:00" from the sample
Asia/Tokyo to the sample America/New_York converts to "22:00" (previous
evening, standard time); converting "22:00" back resolves after the
transition, and the round trip returns "11:00", not "12:00", although
neither direction hits a DST gap and both conversions succeed. -/
theorem c3_counterexample :
    convertTimeP sampleDB 0 0 ⟨"12:00", "Asia/Tokyo", "America/New_York"⟩ =
      .ok ⟨"22:00", ⟨"12:00", "Asia/Tokyo", "+09:00", false⟩,
           ⟨"22:00", "America/New_York", "-05:00", false⟩⟩ ∧
    convertTimeP sampleDB 0 0 ⟨"22:00", "America/New_York", "Asia/Tokyo"⟩ =
      .ok ⟨"11:00", ⟨"22:00", "America/New_York", "-04:00", true⟩,
           ⟨"11:00", "Asia/Tokyo", "+09:00", false⟩⟩ ∧
    ("11:00" : String) ≠ "12:00" :=
  ⟨rfl, rfl, by decide⟩

/-- C3 amended: the A→B→A round trip returns the original time string
provided the hour is written with two digits, both legs resolve exactly
and keep the gap heuristic silent, and both zones' offsets are unchanged
between the two resolved instants. -/
theorem c3_round_trip (db : ZoneDB) (nowTs today : Int) (h m : Nat)
    (A B t : String) (rA rB : ZoneRules) (st st2 : DT)
    (hA : db.rules A = some rA) (hB : db.rules B = some rB)
    (hh : h < 24) (hm : m < 60)
    (ht : t.data = pad2 h ++ ':' :: pad2 m)
    (hsrc : fromObjectM db today h m A = .ok st)
    (hexact : st.localMinutes = today * 1440 + ((h * 60 + m : Nat) : Int))
    (hgap : gapHeuristic st = false)
    (hsrc2 : fromObjectM db today (((st.ts + rB.offsetAt st.ts).emod 1440).toNat / 60)
        (((st.ts + rB.offsetAt st.ts).emod 1440).toNat % 60) B = .ok st2)
    (hexact2 : st2.localMinutes = today * 1440 + (st.ts + rB.offsetAt st.ts).emod 1440)
    (hgap2 : gapHeuristic st2 = false)
    (hstabA : rA.offsetAt st2.ts = rA.offsetAt st.ts)
    (hstabB : rB.offsetAt st2.ts = rB.offsetAt st.ts) :
    ∃ out1 out2,
      convertTimeP db nowTs today ⟨t, A, B⟩ = .ok out1 ∧
      convertTimeP db nowTs today ⟨out1.converted_time, B, A⟩ = .ok out2 ∧
      out2.converted_time = t := by
  obtain ⟨hzrA, _⟩ := fromObjectM_ok_inv hsrc
  have hstrA : st.rules = rA := Option.some_inj.mp (hzrA.symm.trans hA)
  obtain ⟨hzrB, _⟩ := fromObjectM_ok_inv hsrc2
  have hstrB : st2.rules = rB := Option.some_inj.mp (hzrB.symm.trans hB)
  have hf1 : validateTimeFormat t = true := by
    unfold validateTimeFormat
    rw [ht]
    exact pads_accepted h hh m hm
  have hp1 : parseHM t = some (h, m) := by
    unfold parseHM
    rw [ht]
    exact pads_parse h hh m hm
  have hz1' : (db.rules A).isSome = true := by rw [hA]; rfl
  have hz2' : (db.rules B).isSome = true := by rw [hB]; rfl
  have hres1 := convertTimeP_run db nowTs today ⟨t, A, B⟩ h m st rB hz1' hB hf1 hp1 hsrc hgap
  set tod2 : Int := (st.ts + rB.offsetAt st.ts).emod 1440 with htod2def
  have htod2nonneg : 0 ≤ tod2 := Int.emod_nonneg _ (by norm_num)
  have htod2lt : tod2 < 1440 := Int.emod_lt_of_pos _ (by norm_num)
  set h2 : Nat := tod2.toNat / 60 with hh2def
  set m2 : Nat := tod2.toNat % 60 with hm2def
  have hh2 : h2 < 24 := by omega
  have hm2 : m2 < 60 := by omega
  have htodnat : (DT.mk st.ts B rB).timeOfDay = ((tod2.toNat : Nat) : Int) := by
    show (st.ts + rB.offsetAt st.ts).emod 1440 = _
    omega
  have hfmt1 : (DT.mk st.ts B rB).formatHHmm = ⟨pad2 h2 ++ ':' :: pad2 m2⟩ := by
    rw [formatHHmm_eq_pad htodnat]
  have hf2 : validateTimeFormat ⟨pad2 h2 ++ ':' :: pad2 m2⟩ = true :=
    pads_accepted h2 hh2 m2 hm2
  have hp2 : parseHM ⟨pad2 h2 ++ ':' :: pad2 m2⟩ = some (h2, m2) :=
    pads_parse h2 hh2 m2 hm2
  have hres2 := convertTimeP_run db nowTs today ⟨⟨pad2 h2 ++ ':' :: pad2 m2⟩, B, A⟩
    h2 m2 st2 rA hz2' hA hf2 hp2 hsrc2 hgap2
  have htod3 : (DT.mk st2.ts A rA).timeOfDay = ((h * 60 + m : Nat) : Int) := by
    show (st2.ts + rA.offsetAt st2.ts) % 1440 = _
    rw [hstabA]
    have e1 : st.ts + rA.offsetAt st.ts = today * 1440 + ((h * 60 + m : Nat) : Int) := by
      rw [← hstrA]
      exact hexact
    have e2 : st2.ts + rB.offsetAt st.ts = today * 1440 + tod2 := by
      rw [← hstabB, ← hstrB]
      exact hexact2
    have e3 : tod2 = (st.ts + rB.offsetAt st.ts) % 1440 := htod2def
    omega
  have hfmt2 : (DT.mk st2.ts A rA).formatHHmm = t := by
    rw [formatHHmm_eq_pad htod3]
    have hdiv : (h * 60 + m) / 60 = h := by omega
    have hmod : (h * 60 + m) % 60 = m := by omega
    rw [hdiv, hmod]
    cases t with
    | mk l => exact congrArg String.mk ht.symm
  refine ⟨_, ⟨(DT.mk st2.ts A rA).formatHHmm,
      ⟨⟨pad2 h2 ++ ':' :: pad2 m2⟩, B, st2.formatZZ, st2.isInDST⟩,
      ⟨(DT.mk st2.ts A rA).formatHHmm, A, (DT.mk st2.ts A rA).formatZZ,
       (DT.mk st2.ts A rA).isInDST⟩⟩, hres1, ?_, ?_⟩
  · show convertTimeP db nowTs today ⟨(DT.mk st.ts B rB).formatHHmm, B, A⟩ = _
    rw [hfmt1]
    exact hres2
  · exact hfmt2

/-- Witness for the amended C3: "05:15" UTC → Asia/Tokyo → UTC round
trip. -/
theorem c3_witness :
    ∃ out1 out2,
      convertTimeP sampleDB 0 0 ⟨"05:15", "UTC", "Asia/Tokyo"⟩ = .ok out1 ∧
      convertTimeP sampleDB 0 0 ⟨out1.converted_time, "Asia/Tokyo", "UTC"⟩ = .ok out2 ∧
      out2.converted_time = "05:15" :=
  c3_round_trip sampleDB 0 0 5 15 "UTC" "Asia/Tokyo" "05:15" utcRules tokyoRules
    ⟨315, "UTC", utcRules⟩ ⟨315, "Asia/Tokyo", tokyoRules⟩
    rfl rfl (by decide) (by decide) rfl rfl rfl rfl rfl rfl rfl rfl rfl

/-- C8 counterexample: a successful conversion echoes the raw input
string as source.time; for input "2:05" the reported source civil time
"2:05" is not a zero-padded HH:MM string. -/
theorem c8_counterexample :
    convertTimeP sampleDB 0 0 ⟨"2:05", "UTC", "Asia/Tokyo"⟩ =
      .ok ⟨"11:05", ⟨"2:05", "UTC", "+00:00", false⟩,
           ⟨"11:05", "Asia/Tokyo", "+09:00", false⟩⟩ ∧
    isPaddedHHMM "2:05" = false :=
  ⟨rfl, by decide⟩

/-- C8 amended: in every successful result convertedTime and target.time
are zero-padded 24-hour HH:MM strings and both offsets are signed ±HH:MM
(for a database whose offsets stay under 100 hours), while source.time
merely echoes the raw input string. -/
theorem c8_output_formats (db : ZoneDB) (nowTs today : Int)
    (args : TimezoneConversionInput) (out : TimezoneConversionOutput)
    (hsane : saneOffsets db)
    (hok : convertTimeP db nowTs today args = .ok out) :
    isPaddedHHMM out.converted_time = true ∧
    isPaddedHHMM out.target.time = true ∧
    isSignedOffsetStr out.source.offset = true ∧
    isSignedOffsetStr out.target.offset = true ∧
    out.source.time = args.time := by
  obtain ⟨st, rt, hsrc, hrt, hgap, hout⟩ := convertTimeP_ok_inv hok
  obtain ⟨hzr, hzn⟩ := fromObjectM_ok_inv hsrc
  subst hout
  refine ⟨isPaddedHHMM_formatHHmm _, isPaddedHHMM_formatHHmm _, ?_, ?_, rfl⟩
  · exact isSignedOffsetStr_formatOffset _ (hsane _ _ hzr _)
  · exact isSignedOffsetStr_formatOffset _ (hsane _ _ hrt _)

/-- Witness for the amended C8 at the spec's UTC scenario: source offset
"+00:00", padded times on the converted side, raw echo on the source
side. -/
theorem c8_witness :
    isPaddedHHMM ("08:00" : String) = true ∧
    isPaddedHHMM ("08:00" : String) = true ∧
    isSignedOffsetStr ("+00:00" : String) = true ∧
    isSignedOffsetStr ("-04:00" : String) = true ∧
    ("12:00" : String) = "12:00" :=
  c8_output_formats sampleDB 0 0 ⟨"12:00", "UTC", "America/New_York"⟩
    ⟨"08:00", ⟨"12:00", "UTC", "+00:00", false⟩,
     ⟨"08:00", "America/New_York", "-04:00", true⟩⟩ sampleDB_sane rfl
